import Mathlib

/-!
Verification of the OAuth 2.1 authorization-code-with-PKCE client layer in
`mcp/client/auth.py` (class `OAuthClientProvider`).  The Python code is
shallowly embedded: each modelled method becomes a pure Lean function over an
explicit provider-state record; network responses and random values arrive as
oracle parameters; a raised Python exception becomes an `Except`-style error
value returned together with the provider state as mutated up to the raise
(Python exceptions do not roll back attribute assignments).  Wall-clock time
(`time.time()`) is modelled as a natural-number instant passed in explicitly.
-/

namespace McpAuth

/-- Python truthiness of an optional string: `None` and the empty string are
falsy, every other string is truthy. -/
def pyTruthyOptStr : Option String → Bool
  | none => false
  | some s => !s.isEmpty

/-- Python truthiness of an optional natural number (models optional
`expires_in` and the expiry-instant attribute): `None` and `0` are falsy. -/
def pyTruthyOptNat : Option Nat → Bool
  | none => false
  | some n => n != 0

/-- Accumulator-style helper for `pySplitWhitespace`: `cur` holds the
reversed characters of the token being read. -/
def py_split_ws_aux (cur : List Char) : List Char → List String
  | [] => if cur.isEmpty then [] else [String.mk cur.reverse]
  | c :: rest =>
    if c.isWhitespace then
      if cur.isEmpty then py_split_ws_aux [] rest
      else String.mk cur.reverse :: py_split_ws_aux [] rest
    else py_split_ws_aux (c :: cur) rest

/-- Python `str.split()` with no argument: split on runs of whitespace,
dropping empty pieces. -/
def pySplitWhitespace (s : String) : List String :=
  py_split_ws_aux [] s.data

/-- Model of `mcp.shared.auth.OAuthToken`: `access_token` is required, the
rest optional.  `expires_in` is a number of seconds. -/
structure OAuthToken where
  access_token : String
  refresh_token : Option String := none
  scope : Option String := none
  expires_in : Option Nat := none
deriving Repr, DecidableEq

/-- Model of `mcp.shared.auth.OAuthClientMetadata`, restricted to the fields
`auth.py` reads or writes: the ordered redirect URIs and the optional
space-delimited requested scope. -/
structure OAuthClientMetadata where
  redirect_uris : List String
  scope : Option String := none
deriving Repr, DecidableEq

/-- Model of `mcp.shared.auth.OAuthMetadata`, restricted to the fields
`auth.py` reads. -/
structure OAuthMetadata where
  authorization_endpoint : Option String := none
  token_endpoint : Option String := none
  registration_endpoint : Option String := none
  scopes_supported : Option (List String) := none
deriving Repr, DecidableEq

/-- Model of `mcp.shared.auth.OAuthClientInformationFull`, restricted to the
fields `auth.py` reads. -/
structure OAuthClientInformationFull where
  client_id : String
  client_secret : Option String := none
deriving Repr, DecidableEq

/-- Model of the `TokenStorage` protocol as a record of its two slots; the
provider's `storage.set_tokens` / `set_client_info` calls become functional
updates of these slots. -/
structure TokenStorage where
  tokens : Option OAuthToken := none
  client_info : Option OAuthClientInformationFull := none
deriving Repr, DecidableEq

/-- Model of an `OAuthClientProvider` instance: the constructor arguments
(`server_url`, `client_metadata`, `storage`, `timeout`; the two handler
callbacks are modelled as oracle inputs to the flow functions) together with
the mutable cached attributes set in `__init__`. -/
structure OAuthClientProvider where
  server_url : String
  client_metadata : OAuthClientMetadata
  storage : TokenStorage
  timeout : Nat
  current_tokens : Option OAuthToken := none
  metadata : Option OAuthMetadata := none
  client_info : Option OAuthClientInformationFull := none
  token_expiry_time : Option Nat := none
  code_verifier : Option String := none
  auth_state : Option String := none
deriving Repr, DecidableEq

/-- `OAuthClientProvider.__init__`: caches start empty, constructor arguments
are stored. -/
def mk_provider (server_url : String) (client_metadata : OAuthClientMetadata)
    (storage : TokenStorage) (timeout : Nat) : OAuthClientProvider :=
  { server_url := server_url, client_metadata := client_metadata,
    storage := storage, timeout := timeout }

/-- Outcome of `_validate_token_scopes`: normal return, or the raised
scope-violation exception carrying the unauthorized scope tokens. -/
inductive ScopeValidation where
  | ok
  | scopeViolation (unauthorized : List String)
deriving Repr, DecidableEq

/-- `OAuthClientProvider._validate_token_scopes` (auth.py lines 249-280),
taking `self.client_metadata.scope` as `client_scope`.  An absent or empty
granted scope passes; with no explicitly requested scope the server grant is
accepted; otherwise any returned scope token outside the requested set raises
the scope-violation exception. -/
def validate_token_scopes (client_scope : Option String)
    (token_response : OAuthToken) : ScopeValidation :=
  if !pyTruthyOptStr token_response.scope then .ok
  else if pyTruthyOptStr client_scope then
    let requested_scopes := pySplitWhitespace (client_scope.getD "")
    let returned_scopes := pySplitWhitespace (token_response.scope.getD "")
    let unauthorized_scopes :=
      returned_scopes.filter (fun t => !requested_scopes.contains t)
    if !unauthorized_scopes.isEmpty then .scopeViolation unauthorized_scopes
    else .ok
  else .ok

/-- `OAuthClientProvider._has_valid_token` (auth.py lines 238-247), with the
current wall-clock instant `now` standing for `time.time()`: false when no
token set is cached or its access token is the empty string; false when a
truthy (non-`None`, non-zero) expiry instant is recorded and `now` is
strictly past it; true otherwise. -/
def has_valid_token (now : Nat) (p : OAuthClientProvider) : Bool :=
  match p.current_tokens with
  | none => false
  | some tok =>
    if tok.access_token.isEmpty then false
    else if pyTruthyOptNat p.token_expiry_time &&
        decide (now > p.token_expiry_time.getD 0) then false
    else true

/-- Model of what `_exchange_code_for_token` and `_refresh_access_token`
observe of the token-endpoint POST response: the HTTP status, the raw body
text, the outcome of decoding the body as a JSON error object (`none` means
`response.json()` raised; otherwise the optional `error_description` and
`error` members), and the outcome of `OAuthToken.model_validate` on the body
(`none` means JSON decoding or model validation raised). -/
structure TokenEndpointResponse where
  status : Nat
  text : String
  error_json : Option (Option String × Option String) := none
  token_json : Option OAuthToken := none
deriving Repr, DecidableEq

/-- Exceptions the modelled methods raise (auth.py raises plain `Exception`
with distinguishing messages; the variants keep the distinguishing data). -/
inductive AuthError where
  | tokenExchangeError (msg : String)
  | tokenParseError
  | scopeViolationError (unauthorized : List String)
  | stateMismatchError (returned : Option String) (expected : String)
  | missingCodeError
deriving Repr, DecidableEq

/-- Message of the raw-status token-exchange failure,
`f-string "Token exchange failed: \x7bstatus\x7d \x7btext\x7d"`. -/
def raw_exchange_message (status : Nat) (text : String) : String :=
  s!"Token exchange failed: {status} {text}"

/-- Message the parsed-error branch of `_exchange_code_for_token` formats,
`f-string "Token exchange failed: \x7bmsg\x7d (HTTP \x7bstatus\x7d)"`. -/
def parsed_exchange_message (msg : String) (status : Nat) : String :=
  s!"Token exchange failed: {msg} (HTTP {status})"

/-- Expiry-instant computation shared verbatim by `_exchange_code_for_token`
(auth.py lines 433-437) and `_refresh_access_token` (lines 487-491): when
`expires_in` is truthy (present and non-zero) the expiry is `time.time() +
expires_in`, otherwise the recorded expiry is `None`. -/
def expiry_from_response (now : Nat) (token_response : OAuthToken) :
    Option Nat :=
  if pyTruthyOptNat token_response.expires_in then
    some (now + token_response.expires_in.getD 0)
  else none

/-- Non-200 branch of `_exchange_code_for_token` (auth.py lines 411-425).
The `try` block either fails to decode the body (`response.json()` raises) or
raises the exception built from the parsed `error_description`/`error`
message; either way the raised exception is caught by the block's own bare
`except Exception`, which raises the raw status/text message instead.  The
`Except String Empty` value is the outcome of the `try` block: always an
exception, which the handler discards before raising the raw message. -/
def token_exchange_failed_message (resp : TokenEndpointResponse) : String :=
  let tryBlock : Except String Empty :=
    match resp.error_json with
    | none => Except.error "JSONDecodeError"
    | some (ed, e) =>
        let error_msg := ed.getD (e.getD "Unknown error")
        Except.error (parsed_exchange_message error_msg resp.status)
  match tryBlock with
  | .ok imp => imp.elim
  | .error _ => raw_exchange_message resp.status resp.text

/-- `OAuthClientProvider._exchange_code_for_token` (auth.py lines 380-441)
from the point where the POST response is available; the provider state is
returned alongside the outcome even on a raise, since a Python exception
preserves attribute assignments made before it.  On a non-200 status the
raw-message token-exchange exception propagates; on 200 the body is parsed
(a parse failure propagates), scopes are validated (a violation propagates
before any state change), and only then are the expiry instant computed, the
tokens stored via `storage.set_tokens`, and the cache updated. -/
def exchange_code_for_token (now : Nat) (resp : TokenEndpointResponse)
    (p : OAuthClientProvider) : Except AuthError Unit × OAuthClientProvider :=
  if resp.status ≠ 200 then
    (.error (.tokenExchangeError (token_exchange_failed_message resp)), p)
  else
    match resp.token_json with
    | none => (.error .tokenParseError, p)
    | some token_response =>
      match validate_token_scopes p.client_metadata.scope token_response with
      | .scopeViolation u => (.error (.scopeViolationError u), p)
      | .ok =>
        let p1 := { p with
          token_expiry_time := expiry_from_response now token_response }
        let p2 := { p1 with storage :=
          { p1.storage with tokens := some token_response } }
        let p3 := { p2 with current_tokens := some token_response }
        (.ok (), p3)

/-- `OAuthClientProvider._refresh_access_token` (auth.py lines 443-501) from
the point where the POST response is available (`resp = none` models a
transport failure of the POST itself).  The `_get_or_register_client` call
(line 449) is outside the modelled fragment: the model assumes a client
registration is available, as the claims under verification only concern the
response handling.  Every failure inside the `try` — non-200 status, body
parse failure, and notably a scope violation raised by
`_validate_token_scopes` — is caught by the enclosing `except Exception` and
becomes the `False` return; only after validation passes are the expiry,
store and cache updated and `True` returned. -/
def refresh_access_token (now : Nat) (resp : Option TokenEndpointResponse)
    (p : OAuthClientProvider) : Bool × OAuthClientProvider :=
  match p.current_tokens with
  | none => (false, p)
  | some cur =>
    if !pyTruthyOptStr cur.refresh_token then (false, p)
    else
      match resp with
      | none => (false, p)
      | some r =>
        if r.status ≠ 200 then (false, p)
        else match r.token_json with
          | none => (false, p)
          | some token_response =>
            match validate_token_scopes p.client_metadata.scope
                token_response with
            | .scopeViolation _ => (false, p)
            | .ok =>
              let p1 := { p with
                token_expiry_time := expiry_from_response now token_response }
              let p2 := { p1 with storage :=
                { p1.storage with tokens := some token_response } }
              let p3 := { p2 with current_tokens := some token_response }
              (true, p3)

/-- `secrets.compare_digest` on two strings.  Functionally it is equality;
its constant-time execution property is a timing property outside the
functional model. -/
def compare_digest (a b : String) : Bool := a == b

/-- Result of awaiting `callback_handler()`: the authorization code (a
string, possibly empty) and the echoed state (optional). -/
structure CallbackResult where
  auth_code : String
  returned_state : Option String
deriving Repr, DecidableEq

/-- Query parameters `_perform_oauth_flow` assembles (auth.py lines 343-354):
the six fixed parameters, then `scope` appended only when
`self.client_metadata.scope` is truthy at that moment. -/
def build_auth_params (client_id redirect_uri auth_state_value
    code_challenge : String) (cm : OAuthClientMetadata) :
    List (String × String) :=
  let base := [("response_type", "code"), ("client_id", client_id),
    ("redirect_uri", redirect_uri), ("state", auth_state_value),
    ("code_challenge", code_challenge),
    ("code_challenge_method", "S256")]
  match cm.scope with
  | some s => if s.isEmpty then base else base ++ [("scope", s)]
  | none => base

/-- Interactive tail of `OAuthClientProvider._perform_oauth_flow` (auth.py
lines 342-378), starting at the CSRF-state generation: `generated_state` is
the oracle for `secrets.token_urlsafe(32)` and `cb` for the awaited
`callback_handler()` result; `exchange_resp` feeds the nested
`_exchange_code_for_token` call.  The state parameter is stored, then the
echoed state is checked (`None` or a `compare_digest` mismatch raises the
state-mismatch exception — note the raise happens before the line that
clears `self._auth_state`); after a successful check the stored state is
cleared, a falsy authorization code raises the missing-code exception, and
otherwise the code is exchanged for tokens. -/
def perform_oauth_flow_interactive (generated_state : String)
    (cb : CallbackResult) (exchange_resp : TokenEndpointResponse) (now : Nat)
    (p : OAuthClientProvider) :
    Except AuthError Unit × OAuthClientProvider :=
  let p0 := { p with auth_state := some generated_state }
  let state_ok := match cb.returned_state with
    | none => false
    | some rs => compare_digest rs generated_state
  if !state_ok then
    (.error (.stateMismatchError cb.returned_state generated_state), p0)
  else
    let p1 := { p0 with auth_state := none }
    if cb.auth_code.isEmpty then (.error .missingCodeError, p1)
    else exchange_code_for_token now exchange_resp p1

/-- One GET attempt inside `_discover_oauth_metadata`: either the transport
raised, or a response with a status and with the combined outcome of
`response.json()` plus `OAuthMetadata.model_validate` on its body (`none`
models either of them raising). -/
inductive DiscoveryAttempt where
  | transportFailure
  | response (status : Nat) (body : Option OAuthMetadata)
deriving Repr, DecidableEq

/-- Outcome of one attempt body in `_discover_oauth_metadata` (auth.py lines
136-142 and 146-154): a 404 returns `None`; `raise_for_status()` raises on
any non-2xx status (httpx raises unless the status is a success); then the
body is decoded and validated, either of which may raise.  `Except Unit`
carries "some exception was raised". -/
def attempt_outcome (a : DiscoveryAttempt) :
    Except Unit (Option OAuthMetadata) :=
  match a with
  | .transportFailure => .error ()
  | .response status body =>
    if status == 404 then .ok none
    else if !(200 ≤ status && status < 300) then .error ()
    else match body with
      | none => .error ()
      | some m => .ok (some m)

/-- `OAuthClientProvider._discover_oauth_metadata` (auth.py lines 125-157):
the first GET carries the `MCP-Protocol-Version` header; any exception in
its attempt body is caught and the same GET is retried once without the
header; any exception in the retry is caught and yields `None`.  The result
pairs the returned value with the list of requests issued, each flagged with
whether it carried the protocol-version header. -/
def discover_oauth_metadata (first second : DiscoveryAttempt) :
    Option OAuthMetadata × List Bool :=
  match attempt_outcome first with
  | .ok r => (r, [true])
  | .error _ =>
    match attempt_outcome second with
    | .ok r => (r, [true, false])
    | .error _ => (none, [true, false])

/-- Scope-defaulting step of `_register_oauth_client` (auth.py lines
178-184): when `client_metadata.scope is None`, a metadata object was
discovered, and its `scopes_supported is not None`, the method assigns
`client_metadata.scope = " ".join(metadata.scopes_supported)` — an in-place
mutation of the externally supplied metadata object.  The function returns
the client metadata as it stands after this step. -/
def register_oauth_client_metadata_update (client_metadata :
    OAuthClientMetadata) (metadata : Option OAuthMetadata) :
    OAuthClientMetadata :=
  match client_metadata.scope, metadata with
  | none, some m =>
    match m.scopes_supported with
    | some scopes =>
        { client_metadata with scope := some (String.intercalate " " scopes) }
    | none => client_metadata
  | _, _ => client_metadata

/-- `OAuthClientProvider.initialize` (auth.py lines 282-285): load the stored
tokens and client info into the cache; no other attribute — in particular
not `_token_expiry_time` — is touched. -/
def load_stored (p : OAuthClientProvider) : OAuthClientProvider :=
  { p with
    current_tokens := p.storage.tokens
    client_info := p.storage.client_info }

/-- Response half of `OAuthClientProvider.async_auth_flow` (auth.py lines
234-236): a 401 clears the cached token set and nothing else. -/
def async_auth_flow_response_hook (status : Nat) (p : OAuthClientProvider) :
    OAuthClientProvider :=
  if status == 401 then { p with current_tokens := none } else p

/-- C1: scope validation succeeds iff the set of granted scope tokens (split
on whitespace) is a subset of the set of requested scope tokens, or no scope
was requested (requested absent or the empty string), or no scope was granted
(granted absent or the empty string); in every other case it reports the
fatal scope violation. -/
theorem c1_validate_token_scopes_iff (requested : Option String)
    (t : OAuthToken) :
    validate_token_scopes requested t = ScopeValidation.ok ↔
      ((∀ g ∈ pySplitWhitespace (t.scope.getD ""),
          g ∈ pySplitWhitespace (requested.getD ""))
        ∨ requested = none ∨ requested = some ""
        ∨ t.scope = none ∨ t.scope = some "") := by
  unfold validate_token_scopes
  cases hts : t.scope with
  | none =>
      simp [pyTruthyOptStr, pySplitWhitespace]
  | some g =>
      by_cases hg : g = ""
      · subst hg
        simp [pyTruthyOptStr, show "".isEmpty = true from rfl]
      · cases hreq : requested with
        | none =>
            simp [pyTruthyOptStr, hg, String.isEmpty_iff]
        | some r =>
            by_cases hr : r = ""
            · subst hr
              simp [pyTruthyOptStr, hg, String.isEmpty_iff,
                show "".isEmpty = true from rfl]
            · have hgE : g.isEmpty = false := by
                cases h : g.isEmpty
                · rfl
                · exact absurd ((String.isEmpty_iff g).mp h) hg
              have hrE : r.isEmpty = false := by
                cases h : r.isEmpty
                · rfl
                · exact absurd ((String.isEmpty_iff r).mp h) hr
              simp [pyTruthyOptStr, hg, hr, hgE, hrE,
                List.isEmpty_iff, List.filter_eq_nil_iff]

/-- Sample client metadata requesting scope "read". -/
def sample_client_metadata : OAuthClientMetadata :=
  { redirect_uris := ["http://localhost:3000/callback"],
    scope := some "read" }

/-- Sample provider over `sample_client_metadata` with an empty store and
the default 300-second timeout. -/
def sample_provider : OAuthClientProvider :=
  mk_provider "https://api.example.com/v1/mcp" sample_client_metadata {} 300

/-- Token response granting scope "admin" although only "read" was
requested. -/
def admin_token : OAuthToken :=
  { access_token := "T1", refresh_token := some "R1",
    scope := some "admin", expires_in := some 3600 }

/-- Successful (HTTP 200) token-endpoint response carrying `admin_token`. -/
def admin_resp : TokenEndpointResponse :=
  { status := 200, text := "", token_json := some admin_token }

/-- Stale token set holding a refresh token. -/
def old_token : OAuthToken :=
  { access_token := "OLD", refresh_token := some "R0" }

/-- Provider already holding `old_token`. -/
def refresh_provider : OAuthClientProvider :=
  { sample_provider with current_tokens := some old_token }

/-- C2: in `_exchange_code_for_token` the scope validation runs before the
expiry computation, the `storage.set_tokens` write and the cache update, so
a raised scope violation leaves the provider state — token store, cached
token set and recorded expiry included — exactly as it was; in
`_refresh_access_token` a scope violation raised on the refresh response is
caught by the surrounding handler and the method returns `False` with the
state likewise untouched. -/
theorem c2_scope_violation_atomic (now : Nat) (resp : TokenEndpointResponse)
    (rresp : Option TokenEndpointResponse) (p : OAuthClientProvider)
    (u : List String) :
    ((exchange_code_for_token now resp p).1 =
        .error (.scopeViolationError u) →
      (exchange_code_for_token now resp p).2 = p) ∧
    (∀ r tok, rresp = some r → r.status = 200 → r.token_json = some tok →
      validate_token_scopes p.client_metadata.scope tok =
        .scopeViolation u →
      refresh_access_token now rresp p = (false, p)) := by
  constructor
  · intro h
    unfold exchange_code_for_token at h ⊢
    by_cases hs : resp.status = 200
    · simp only [hs] at h ⊢
      cases hj : resp.token_json with
      | none => simp [hj] at h
      | some tok =>
        simp only [hj] at h ⊢
        cases hv : validate_token_scopes p.client_metadata.scope tok with
        | ok => simp [hv] at h
        | scopeViolation u2 => simp [hv]
    · simp [hs] at h
  · intro r tok hr hst hj hv
    subst hr
    unfold refresh_access_token
    cases hc : p.current_tokens with
    | none => rfl
    | some cur =>
      by_cases hrt : pyTruthyOptStr cur.refresh_token = true
      · simp [hrt, hst, hj, hv]
      · simp [hrt]

/-- Closed instance of the C2 atomicity theorem: the sample exchange and the
sample refresh both hit the scope violation ("admin" granted, "read"
requested) and leave the respective provider states untouched. -/
theorem c2_witness :
    (exchange_code_for_token 100 admin_resp sample_provider).2 =
      sample_provider ∧
    refresh_access_token 100 (some admin_resp) refresh_provider =
      (false, refresh_provider) := by
  constructor
  · exact (c2_scope_violation_atomic 100 admin_resp (some admin_resp)
      sample_provider ["admin"]).1 rfl
  · exact (c2_scope_violation_atomic 100 admin_resp (some admin_resp)
      refresh_provider ["admin"]).2 admin_resp admin_token rfl rfl rfl rfl

/-- Helper: `_exchange_code_for_token` never touches `_auth_state`. -/
theorem exchange_preserves_auth_state (now : Nat)
    (resp : TokenEndpointResponse) (q : OAuthClientProvider) :
    (exchange_code_for_token now resp q).2.auth_state = q.auth_state := by
  unfold exchange_code_for_token
  split
  · rfl
  · split
    · rfl
    · split <;> rfl

/-- C3 counterexample: generated state "good", echoed state "bad": the flow
raises the state-mismatch exception, yet the stored CSRF state is still
"good" afterwards — the assignment clearing `_auth_state` sits after the
`raise`, so the state is not cleared when the check fails, contradicting
"cleared immediately after this one check regardless of its outcome". -/
theorem c3_counterexample :
    (perform_oauth_flow_interactive "good"
        { auth_code := "xyz", returned_state := some "bad" }
        admin_resp 100 sample_provider).1 =
      .error (.stateMismatchError (some "bad") "good") ∧
    (perform_oauth_flow_interactive "good"
        { auth_code := "xyz", returned_state := some "bad" }
        admin_resp 100 sample_provider).2.auth_state = some "good" := by
  exact ⟨rfl, rfl⟩

/-- C3 (amended): the echoed state is compared against the generated state
with `secrets.compare_digest` (functionally string equality; its
constant-time execution is outside the model); a missing or mismatched
echoed state and a missing code are fatal errors; the stored CSRF state is
cleared immediately after the comparison when it succeeds — whatever the
code check and token exchange then do — while on a failed comparison the
state-mismatch exception propagates with the stored state left in place
(it is only replaced when a later flow attempt stores a fresh state). -/
theorem c3_flow_state_single_use (gen : String) (cb : CallbackResult)
    (resp : TokenEndpointResponse) (now : Nat) (p : OAuthClientProvider) :
    (∀ rs, cb.returned_state = some rs → compare_digest rs gen = true →
      (perform_oauth_flow_interactive gen cb resp now p).2.auth_state =
        none) ∧
    ((cb.returned_state = none ∨
        (∃ rs, cb.returned_state = some rs ∧
          compare_digest rs gen = false)) →
      perform_oauth_flow_interactive gen cb resp now p =
        (.error (.stateMismatchError cb.returned_state gen),
          { p with auth_state := some gen })) ∧
    (∀ rs, cb.returned_state = some rs → compare_digest rs gen = true →
      cb.auth_code = "" →
      (perform_oauth_flow_interactive gen cb resp now p).1 =
        .error .missingCodeError) := by
  refine ⟨?_, ?_, ?_⟩
  · intro rs hrs hcmp
    unfold perform_oauth_flow_interactive
    by_cases hc : cb.auth_code.isEmpty
    · simp [hrs, hcmp, hc]
    · simp [hrs, hcmp, hc, exchange_preserves_auth_state]
  · rintro (hnone | ⟨rs, hrs, hcmp⟩)
    · unfold perform_oauth_flow_interactive
      simp [hnone]
    · unfold perform_oauth_flow_interactive
      simp [hrs, hcmp]
  · intro rs hrs hcmp hcode
    unfold perform_oauth_flow_interactive
    simp [hrs, hcmp, hcode, show "".isEmpty = true from rfl]

/-- Closed instance of the C3 amended theorem: a successful check with an
empty code raises the missing-code error after clearing the state, and a
mismatched echoed state raises the state-mismatch error leaving the
generated state stored. -/
theorem c3_witness :
    (perform_oauth_flow_interactive "S" { auth_code := "", returned_state := some "S" }
        admin_resp 100 sample_provider).2.auth_state = none ∧
    (perform_oauth_flow_interactive "S" { auth_code := "", returned_state := some "S" }
        admin_resp 100 sample_provider).1 = .error .missingCodeError ∧
    perform_oauth_flow_interactive "S" { auth_code := "c", returned_state := some "X" }
        admin_resp 100 sample_provider =
      (.error (.stateMismatchError (some "X") "S"),
        { sample_provider with auth_state := some "S" }) := by
  refine ⟨?_, ?_, ?_⟩
  · exact (c3_flow_state_single_use "S"
      { auth_code := "", returned_state := some "S" } admin_resp 100
      sample_provider).1 "S" rfl rfl
  · exact (c3_flow_state_single_use "S"
      { auth_code := "", returned_state := some "S" } admin_resp 100
      sample_provider).2.2 "S" rfl rfl rfl
  · exact (c3_flow_state_single_use "S"
      { auth_code := "c", returned_state := some "X" } admin_resp 100
      sample_provider).2.1 (Or.inr ⟨"X", rfl, rfl⟩)

/-- Token with no granted scope and a one-hour lifetime. -/
def hour_token : OAuthToken :=
  { access_token := "T1", expires_in := some 3600 }

/-- Successful token-endpoint response carrying `hour_token`. -/
def hour_resp : TokenEndpointResponse :=
  { status := 200, text := "", token_json := some hour_token }

/-- Provider caching `hour_token` with the expiry instant computed by an
exchange performed at instant 100 (100 + 3600 = 3700). -/
def expiry_provider : OAuthClientProvider :=
  (exchange_code_for_token 100 hour_resp sample_provider).2

/-- Provider caching `hour_token` with no recorded expiry instant. -/
def no_expiry_provider : OAuthClientProvider :=
  { sample_provider with current_tokens := some hour_token }

/-- C4 counterexample: a token obtained by the exchange at instant 100 with
`expires_in` 3600 has computed expiry instant 3700, yet at instant 3700
itself — at the expiry instant, where the claim requires "invalid" —
`_has_valid_token` still reports it valid, because the code tests
`time.time() > expiry` rather than `>=`. -/
theorem c4_counterexample :
    expiry_provider.token_expiry_time = some 3700 ∧
    has_valid_token 3700 expiry_provider = true := by
  exact ⟨rfl, rfl⟩

/-- C4 (amended): for every cached token set with a nonempty access token
and a positive recorded lifetime, `_has_valid_token` reports the token valid
at or before the computed expiry instant (issuance time + lifetime) and
invalid strictly after it; a token with no recorded expiry and a present
access token is always reported valid. -/
theorem c4_has_valid_token_boundary (now issued lifetime : Nat)
    (tok : OAuthToken) (p q : OAuthClientProvider) (hl : 0 < lifetime)
    (ha : tok.access_token ≠ "")
    (hp : p.current_tokens = some tok)
    (he : p.token_expiry_time = some (issued + lifetime))
    (hq : q.current_tokens = some tok)
    (hqe : q.token_expiry_time = none) :
    has_valid_token now p = decide (now ≤ issued + lifetime) ∧
    has_valid_token now q = true := by
  have haE : tok.access_token.isEmpty = false := by
    cases h : tok.access_token.isEmpty
    · rfl
    · exact absurd ((String.isEmpty_iff tok.access_token).mp h) ha
  constructor
  · unfold has_valid_token
    rw [hp, he]
    have hnz : pyTruthyOptNat (some (issued + lifetime)) = true := by
      simp [pyTruthyOptNat]
      omega
    simp only [haE, hnz, Option.getD_some, Bool.false_eq_true, if_false,
      Bool.true_and]
    by_cases hle : now ≤ issued + lifetime
    · simp [hle, Nat.not_lt_of_le hle]
    · simp [hle, Nat.lt_of_not_le hle]
  · unfold has_valid_token
    rw [hq, hqe]
    simp [haE, pyTruthyOptNat]

/-- Closed instance of the amended C4 theorem at issuance 100, lifetime
3600: valid at 3700 would be `decide (3701 ≤ 3700) = false` at instant
3701, and the no-expiry provider is valid at an arbitrarily late instant. -/
theorem c4_witness :
    has_valid_token 3701 expiry_provider = decide (3701 ≤ 100 + 3600) ∧
    has_valid_token 999999 no_expiry_provider = true := by
  exact c4_has_valid_token_boundary 3701 100 3600 hour_token
    expiry_provider no_expiry_provider (by decide) (by decide) rfl rfl rfl
    rfl |>.imp id (fun _ => c4_has_valid_token_boundary 999999 100 3600
      hour_token expiry_provider no_expiry_provider (by decide) (by decide)
      rfl rfl rfl rfl |>.2)

/-- C5: the raised token-exchange failure message is always the raw
status/body one, never the message built from the parsed
`error_description`/`error` members — the `raise` carrying the parsed
message sits inside the same `try` block whose bare `except Exception`
replaces every exception, its own raise included, with the raw-status
raise.  Evaluated at a 400 response whose body parses as an OAuth error
object with description "bad code", the message is the raw one and differs
from the parsed-message form the claim requires; the final conjunct shows
no response at all yields a parsed message, and the exchange propagates
exactly that raw message. -/
theorem c5_error_message_always_raw :
    token_exchange_failed_message
      { status := 400, text := "invalid_grant raw body",
        error_json := some (some "bad code", some "invalid_grant") } =
      raw_exchange_message 400 "invalid_grant raw body" ∧
    raw_exchange_message 400 "invalid_grant raw body" ≠
      parsed_exchange_message "bad code" 400 ∧
    (∀ resp : TokenEndpointResponse,
      token_exchange_failed_message resp =
        raw_exchange_message resp.status resp.text) ∧
    (exchange_code_for_token 100
      { status := 400, text := "invalid_grant raw body",
        error_json := some (some "bad code", some "invalid_grant") }
      sample_provider).1 =
      .error (.tokenExchangeError
        (raw_exchange_message 400 "invalid_grant raw body")) := by
  refine ⟨rfl, by decide, ?_, rfl⟩
  intro resp
  obtain ⟨st, tx, ej, tj⟩ := resp
  cases ej with
  | none => rfl
  | some pr =>
    obtain ⟨ed, e⟩ := pr
    rfl

/-- Helper: an attempt that is a transport failure or an error response
(status at least 400) raises inside the attempt body, except that a 404
returns cleanly with `None`. -/
theorem attempt_outcome_of_failure (a : DiscoveryAttempt)
    (h : a = .transportFailure ∨
      ∃ s b, a = .response s b ∧ 400 ≤ s) :
    attempt_outcome a = .error () ∨ attempt_outcome a = .ok none := by
  rcases h with rfl | ⟨s, b, rfl, hs⟩
  · exact Or.inl rfl
  · by_cases h4 : s = 404
    · subst h4
      exact Or.inr rfl
    · left
      unfold attempt_outcome
      have hlt : ¬s < 300 := by omega
      simp [h4, hlt]

/-- C6: discovery handles every failure internally.  A 404 on the first GET
yields `None` after that single (header-carrying) request; a non-404 error
status or a transport failure on the first GET triggers exactly one retry
without the protocol-version header; and if the retry also fails — by
transport failure or any error status, 404 included — the result is `None`.
No branch of `_discover_oauth_metadata` lets an exception escape: every
outcome is a returned value. -/
theorem c6_discovery_never_fatal (first second : DiscoveryAttempt) :
    (∀ b, first = .response 404 b →
      discover_oauth_metadata first second = (none, [true])) ∧
    ((first = .transportFailure ∨
        ∃ s b, first = .response s b ∧ 400 ≤ s ∧ s ≠ 404) →
      (discover_oauth_metadata first second).2 = [true, false] ∧
      ((second = .transportFailure ∨
          ∃ s b, second = .response s b ∧ 400 ≤ s) →
        (discover_oauth_metadata first second).1 = none)) := by
  constructor
  · intro b h
    subst h
    rfl
  · intro hfail
    have h1 : attempt_outcome first = .error () := by
      rcases hfail with rfl | ⟨s, b, rfl, hs, h4⟩
      · rfl
      · unfold attempt_outcome
        have hlt : ¬s < 300 := by omega
        simp [h4, hlt]
    constructor
    · unfold discover_oauth_metadata
      rw [h1]
      cases attempt_outcome second <;> rfl
    · intro hsecond
      unfold discover_oauth_metadata
      rw [h1]
      rcases attempt_outcome_of_failure second hsecond with h2 | h2 <;>
        rw [h2]

/-- Closed instance of the C6 theorem: a 500 on the headered GET followed by
a transport failure on the retry yields `None` after exactly the two
requests (first with, then without the protocol-version header). -/
theorem c6_witness :
    discover_oauth_metadata (.response 500 none) .transportFailure =
      (none, [true, false]) := by
  have h := (c6_discovery_never_fatal (.response 500 none)
    .transportFailure).2
    (Or.inr ⟨500, none, rfl, by omega, by omega⟩)
  have h1 := h.1
  have h2 := h.2 (Or.inl rfl)
  calc discover_oauth_metadata (.response 500 none) .transportFailure
      = ((discover_oauth_metadata (.response 500 none) .transportFailure).1,
        (discover_oauth_metadata (.response 500 none)
          .transportFailure).2) := rfl
    _ = (none, [true, false]) := by rw [h1, h2]

/-- C7 counterexample: with no configured scope and discovered metadata
advertising scopes ["read", "write"], the registration step mutates the
externally supplied client metadata in place, setting its scope field to
"read write" — the requested-scope field is not the same before and after
registration, so the metadata is not immutable for the session. -/
theorem c7_counterexample :
    ({ redirect_uris := ["http://localhost:3000/callback"] } :
      OAuthClientMetadata).scope = none ∧
    (register_oauth_client_metadata_update
        { redirect_uris := ["http://localhost:3000/callback"] }
        (some { scopes_supported := some ["read", "write"] })).scope =
      some "read write" := by
  exact ⟨rfl, rfl⟩

/-- C7 (amended): registration performs exactly one mutation of the
externally supplied client metadata: when no scope was configured and the
discovered metadata advertises `scopes_supported`, the scope field is set to
the advertised scopes joined with spaces; a configured scope is never
changed, the redirect URIs are never changed, and without advertised scopes
a missing scope stays missing.  The authorization URL includes a `scope`
query parameter exactly when the — possibly defaulted — scope field is a
nonempty string when the flow builds the URL, not only when a scope was
explicitly configured at construction. -/
theorem c7_register_scope_defaulting (cm : OAuthClientMetadata)
    (md : Option OAuthMetadata) :
    (register_oauth_client_metadata_update cm md).redirect_uris =
      cm.redirect_uris ∧
    (∀ s, cm.scope = some s →
      (register_oauth_client_metadata_update cm md).scope = some s) ∧
    (∀ m scopes, cm.scope = none → md = some m →
      m.scopes_supported = some scopes →
      (register_oauth_client_metadata_update cm md).scope =
        some (String.intercalate " " scopes)) ∧
    (cm.scope = none →
      (md = none ∨ ∃ m, md = some m ∧ m.scopes_supported = none) →
      (register_oauth_client_metadata_update cm md).scope = none) ∧
    (∀ cid ru sv ch cm2, (∃ v, ("scope", v) ∈
        build_auth_params cid ru sv ch cm2) ↔
      pyTruthyOptStr cm2.scope = true) := by
  refine ⟨?_, ?_, ?_, ?_, ?_⟩
  · unfold register_oauth_client_metadata_update
    rcases hcm : cm.scope with _ | s <;> rcases md with _ | m <;> simp
    cases m.scopes_supported <;> rfl
  · intro s hs
    unfold register_oauth_client_metadata_update
    rw [hs]
    cases md <;> exact hs
  · intro m scopes hn hm hscopes
    subst hm
    unfold register_oauth_client_metadata_update
    rw [hn]
    simp [hscopes]
  · rintro hn (rfl | ⟨m, rfl, hns⟩)
    · unfold register_oauth_client_metadata_update
      rw [hn]
      exact hn
    · unfold register_oauth_client_metadata_update
      rw [hn]
      simp [hns]
      exact hn
  · intro cid ru sv ch cm2
    unfold build_auth_params
    rcases hsc : cm2.scope with _ | s
    · simp [pyTruthyOptStr]
    · by_cases hse : s.isEmpty
      · simp [pyTruthyOptStr, hse]
      · simp [pyTruthyOptStr, hse]

/-- Closed instance of the amended C7 theorem: an explicitly configured
scope "read" survives registration unchanged, and the authorization URL of
a provider whose scope is "read" carries a scope parameter. -/
theorem c7_witness :
    (register_oauth_client_metadata_update sample_client_metadata
      (some { scopes_supported := some ["read", "write"] })).scope =
      some "read" ∧
    (∃ v, ("scope", v) ∈ build_auth_params "abc"
      "http://localhost:3000/callback" "S" "CH" sample_client_metadata) := by
  constructor
  · exact (c7_register_scope_defaulting sample_client_metadata
      (some { scopes_supported := some ["read", "write"] })).2.1 "read" rfl
  · exact ((c7_register_scope_defaulting sample_client_metadata
      none).2.2.2.2 "abc" "http://localhost:3000/callback" "S" "CH"
      sample_client_metadata).mpr rfl

/-- Helper: `_exchange_code_for_token` neither reads nor writes the stored
timeout: over a provider differing only in the `timeout` attribute its
outcome is identical and the resulting state differs only in that
attribute. -/
theorem exchange_timeout_independent (now : Nat)
    (resp : TokenEndpointResponse) (p : OAuthClientProvider) (t : Nat) :
    exchange_code_for_token now resp { p with timeout := t } =
      ((exchange_code_for_token now resp p).1,
        { (exchange_code_for_token now resp p).2 with timeout := t }) := by
  unfold exchange_code_for_token
  dsimp only
  split
  · rfl
  · split
    · rfl
    · split <;> simp_all

/-- Helper: the interactive flow fragment neither reads nor writes the
stored timeout either. -/
theorem flow_timeout_independent (gen : String) (cb : CallbackResult)
    (resp : TokenEndpointResponse) (now : Nat) (p : OAuthClientProvider)
    (t : Nat) :
    perform_oauth_flow_interactive gen cb resp now { p with timeout := t } =
      ((perform_oauth_flow_interactive gen cb resp now p).1,
        { (perform_oauth_flow_interactive gen cb resp now p).2 with
          timeout := t }) := by
  unfold perform_oauth_flow_interactive
  dsimp only
  split
  · rfl
  · split
    · rfl
    · exact exchange_timeout_independent now resp
        { p with auth_state := none } t

/-- C9: the configured overall timeout is stored by `__init__` and never
read again — `self.timeout` appears nowhere else in auth.py, and the
awaited callback is unbounded — so nothing in the interactive flow depends
on it and no timeout exception exists to be raised: the flow outcome
(success or the exact exception raised) is identical for any two configured
timeout values.  The literal 30.0-second timeouts in the code are httpx
per-request timeouts on the token POSTs, not the overall interactive bound
the claim describes. -/
theorem c9_flow_outcome_ignores_timeout (gen : String) (cb : CallbackResult)
    (resp : TokenEndpointResponse) (now : Nat) (p : OAuthClientProvider)
    (t1 t2 : Nat) :
    (perform_oauth_flow_interactive gen cb resp now
        { p with timeout := t1 }).1 =
      (perform_oauth_flow_interactive gen cb resp now
        { p with timeout := t2 }).1 := by
  rw [flow_timeout_independent gen cb resp now p t1,
    flow_timeout_independent gen cb resp now p t2]

/-- Fresh store already holding `hour_token`. -/
def stored_storage : TokenStorage := { tokens := some hour_token }

/-- C10: the recorded token-expiry instant is written only by a successful
exchange or refresh: `initialize` loads tokens and client info from storage
and leaves the recorded expiry unchanged; the 401 invalidation clears only
the cached token set, touching neither the expiry nor the store; and on a
fresh provider a token loaded from storage is reported valid at every
instant, whatever its `expires_in` value or issuance age, because the fresh
expiry attribute is still `None`. -/
theorem c10_loaded_token_always_valid (p : OAuthClientProvider)
    (status : Nat) (url : String) (cm : OAuthClientMetadata)
    (storage : TokenStorage) (t now : Nat) (tok : OAuthToken)
    (hs : storage.tokens = some tok) (ha : tok.access_token ≠ "") :
    (load_stored p).token_expiry_time = p.token_expiry_time ∧
    (async_auth_flow_response_hook status p).token_expiry_time =
      p.token_expiry_time ∧
    (async_auth_flow_response_hook status p).storage = p.storage ∧
    has_valid_token now (load_stored (mk_provider url cm storage t)) =
      true := by
  refine ⟨rfl, ?_, ?_, ?_⟩
  · unfold async_auth_flow_response_hook
    split <;> rfl
  · unfold async_auth_flow_response_hook
    split <;> rfl
  · have haE : tok.access_token.isEmpty = false := by
      cases h : tok.access_token.isEmpty
      · rfl
      · exact absurd ((String.isEmpty_iff tok.access_token).mp h) ha
    unfold has_valid_token load_stored mk_provider
    dsimp only
    rw [hs]
    simp [haE, pyTruthyOptNat]

/-- Closed instance of the C10 theorem: a stored one-hour token loaded by a
fresh provider is still reported valid at instant 999999. -/
theorem c10_witness :
    has_valid_token 999999
      (load_stored (mk_provider "https://api.example.com/v1/mcp"
        sample_client_metadata stored_storage 300)) = true := by
  exact (c10_loaded_token_always_valid sample_provider 401
    "https://api.example.com/v1/mcp" sample_client_metadata stored_storage
    300 999999 hour_token rfl (by decide)).2.2.2
